import Mathlib

/-!
Shallow embedding of the authentication/authorization gate in src/auth.py:
token extraction from the Authorization header, JWKS key lookup, JWT
verification (with the jose library and the network fetch treated as an
external oracle), permission checking, and the requires_auth guard that
composes them.
-/

namespace CMS

/-- Body of the dict passed to each AuthError raise in src/auth.py:
keys error, code, description. -/
structure ErrBody where
  error : Nat
  code : String
  description : String
deriving DecidableEq, Repr

/-- AuthError exception of src/auth.py: an error body plus an HTTP status code. -/
structure AuthError where
  error : ErrBody
  status_code : Nat
deriving DecidableEq, Repr

/-- Exceptions that can escape the functions of src/auth.py: the structured
AuthError, Python IndexError and KeyError from out-of-range subscripts, and
exceptions raised by the jose library outside any try block. -/
inductive Exc where
  | authError (e : AuthError)
  | indexError
  | keyError
  | joseError (msg : String)
deriving DecidableEq, Repr

/-- Python whitespace characters recognised by str.split with no argument
(ASCII fragment). -/
def isPySpace (c : Char) : Bool :=
  c == ' ' || c == '\t' || c == '\n' || c == '\r' || c == '\x0b' || c == '\x0c'

/-- Helper for pySplit: walk the characters, accumulating the current word
reversed. -/
def splitWsAux : List Char → List Char → List String
  | [], cur => if cur.isEmpty then [] else [String.mk cur.reverse]
  | c :: cs, cur =>
    if isPySpace c then
      (if cur.isEmpty then [] else [String.mk cur.reverse]) ++ splitWsAux cs []
    else
      splitWsAux cs (c :: cur)

/-- Python str.split with no argument: split on runs of whitespace,
discarding empty segments. -/
def pySplit (s : String) : List String := splitWsAux s.data []

/-- Python str.lower (ASCII fragment). -/
def pyLower (s : String) : String := String.mk (s.data.map Char.toLower)

/-- The AuthError raised when the Authorization header is absent
(src/auth.py lines 34-39). -/
def authHeaderMissing : Exc :=
  .authError ⟨⟨401, "authorization_header_missing", "Authorization header is expected."⟩, 401⟩

/-- Embedding of get_token_auth_header (src/auth.py lines 28-66). The argument
models request.headers.get applied to the Authorization key: none when the
header is absent. Python `if not auth` is true for None and for the empty
string. `parts[0]` on an empty list raises IndexError. -/
def get_token_auth_header (auth : Option String) : Except Exc String :=
  match auth with
  | none => .error authHeaderMissing
  | some a =>
    if a = "" then .error authHeaderMissing
    else
      match pySplit a with
      | [] => .error .indexError
      | p0 :: rest =>
        if pyLower p0 ≠ "bearer" then
          .error (.authError ⟨⟨401, "invalid_header",
            "Authorization header must start with \"Bearer\"."⟩, 401⟩)
        else
          match rest with
          | [] => .error (.authError ⟨⟨401, "invalid_header", "Token not found."⟩, 401⟩)
          | [t] => .ok t
          | _ => .error (.authError ⟨⟨401, "invalid_header",
              "Authorization header must be bearer token."⟩, 401⟩)

/-- Decoded JWT payload, restricted to the field the system inspects:
permissions is none when the claims mapping has no permissions entry. -/
structure Payload where
  permissions : Option (List String)
deriving DecidableEq, Repr

/-- Embedding of check_permissions (src/auth.py lines 69-92). -/
def check_permissions (permission : String) (payload : Payload) : Except Exc Bool :=
  match payload.permissions with
  | none => .error (.authError ⟨⟨400, "invalid_claims", "Permissions not included in JWT."⟩, 400⟩)
  | some perms =>
    if permission ∉ perms then
      .error (.authError ⟨⟨403, "unauthorized", "Permission not found."⟩, 403⟩)
    else
      .ok true

/-- A JSON object with string values, as parsed from the JWKS document:
an association list of field name and value. -/
def Dict := List (String × String)
deriving DecidableEq, Repr

/-- Python subscript d[k] made total: the value at the first occurrence of
field k, or none (a KeyError in Python). -/
def dget (d : Dict) (k : String) : Option String :=
  (List.find? (fun p => p.1 == k) d).map (fun p => p.2)

/-- Embedding of the rsa_key loop of verify_decode_jwt (src/auth.py lines
105-121): rsa_key starts as the empty dict acc and is overwritten by the
projection of every record whose kid equals the token header kid; a record
missing a subscripted field raises KeyError. -/
def scanKeys (keys : List Dict) (kid : String) (acc : Dict) : Except Exc Dict :=
  match keys with
  | [] => .ok acc
  | key :: rest =>
    match dget key "kid" with
    | none => .error .keyError
    | some k =>
      if k = kid then
        match dget key "kty", dget key "use", dget key "n", dget key "e" with
        | some t, some u, some n, some e =>
          scanKeys rest kid [("kty", t), ("kid", k), ("use", u), ("n", n), ("e", e)]
        | _, _, _, _ => .error .keyError
      else
        scanKeys rest kid acc

/-- The five fields verify_decode_jwt projects out of a JWKS record. -/
def project5 (rec : Dict) : Dict :=
  [("kty", (dget rec "kty").getD ""), ("kid", (dget rec "kid").getD ""),
   ("use", (dget rec "use").getD ""), ("n", (dget rec "n").getD ""),
   ("e", (dget rec "e").getD "")]

/-- Stated from the spec for comparison: the projection of the FIRST record
whose kid matches. -/
def firstMatchProjection (keys : List Dict) (kid : String) : Option Dict :=
  (List.find? (fun r => dget r "kid" == some kid) keys).map project5

/-- The projection of the LAST record whose kid matches. -/
def lastMatchProjection (keys : List Dict) (kid : String) : Option Dict :=
  (List.find? (fun r => dget r "kid" == some kid) keys.reverse).map project5

/-- Possible outcomes of the jose jwt.decode call (src/auth.py lines 127-133)
as dispatched by the except clauses: success with a payload, an
ExpiredSignatureError, a JWTClaimsError, or any other exception. -/
inductive DecodeOutcome where
  | ok (payload : Payload)
  | expiredSignature
  | claimsError
  | otherError
deriving DecidableEq, Repr

/-- The external world of verify_decode_jwt: the parsed keys array of the
fetched JWKS document, the behaviour of jose jwt.get_unverified_header
(an error is a raised jose exception), the behaviour of jose jwt.decode
applied to the token, the rsa key and the three configured verification
parameters, and the process-wide configuration ALGORITHMS, API_AUDIENCE and
AUTH0_DOMAIN. -/
structure Env where
  jwksKeys : List Dict
  getUnverifiedHeader : String → Except String Dict
  decode : String → Dict → String → String → String → DecodeOutcome
  algorithms : String
  audience : String
  domain : String

/-- Embedding of verify_decode_jwt (src/auth.py lines 95-161). The jwks fetch
and the jose calls are read from the environment; an exception raised by
jwt.get_unverified_header happens outside the try block and propagates
unwrapped. -/
def verify_decode_jwt (env : Env) (token : String) : Except Exc Payload :=
  match env.getUnverifiedHeader token with
  | .error msg => .error (.joseError msg)
  | .ok header =>
    match dget header "kid" with
    | none => .error (.authError ⟨⟨401, "invalid_header", "Authorization malformed."⟩, 401⟩)
    | some kid =>
      match scanKeys env.jwksKeys kid [] with
      | .error exc => .error exc
      | .ok rsaKey =>
        if rsaKey ≠ [] then
          match env.decode token rsaKey env.algorithms env.audience
              ("https://" ++ env.domain ++ "/") with
          | .ok payload => .ok payload
          | .expiredSignature =>
            .error (.authError ⟨⟨401, "token_expired", "Token expired."⟩, 401⟩)
          | .claimsError =>
            .error (.authError ⟨⟨401, "invalid_claims",
              "Incorrect claims. Please, check the audience and issuer."⟩, 401⟩)
          | .otherError =>
            .error (.authError ⟨⟨400, "invalid_header",
              "Unable to parse authentication token."⟩, 400⟩)
        else
          .error (.authError ⟨⟨400, "invalid_header",
            "Unable to find the appropriate key."⟩, 400⟩)

/-- Observable stages of one invocation of a guarded operation: entering
get_token_auth_header, entering verify_decode_jwt (whose first statement is
the JWKS network fetch), entering check_permissions, and calling the wrapped
operation with the bearer token. -/
inductive Event where
  | extract
  | verify
  | checkPerms
  | call (token : String)
deriving DecidableEq, Repr

/-- Embedding of the wrapper produced by requires_auth (src/auth.py lines
164-178): run the three stages in order, short-circuiting on the first
raised exception, then call the wrapped operation f on the token. The first
component records which stages ran. -/
def requires_auth_wrapper {α : Type} (env : Env) (permission : String)
    (f : String → α) (auth : Option String) : List Event × Except Exc α :=
  match get_token_auth_header auth with
  | .error exc => ([Event.extract], .error exc)
  | .ok token =>
    match verify_decode_jwt env token with
    | .error exc => ([Event.extract, Event.verify], .error exc)
    | .ok payload =>
      match check_permissions permission payload with
      | .error exc => ([Event.extract, Event.verify, Event.checkPerms], .error exc)
      | .ok _ =>
        ([Event.extract, Event.verify, Event.checkPerms, Event.call token], .ok (f token))

/-- A JWKS record with key identifier k1 and modulus nA. -/
def keyA : Dict := [("kid", "k1"), ("kty", "RSA"), ("use", "sig"), ("n", "nA"), ("e", "eA")]

/-- A second JWKS record with the same key identifier k1 but modulus nB. -/
def keyB : Dict := [("kid", "k1"), ("kty", "RSA"), ("use", "sig"), ("n", "nB"), ("e", "eB")]

/-- An environment whose jose get_unverified_header rejects every token, as
the real jose library does on a string that is not a JWT. -/
def joseRejectEnv : Env where
  jwksKeys := []
  getUnverifiedHeader := fun _ => .error "Error decoding token headers."
  decode := fun _ _ _ _ _ => DecodeOutcome.otherError
  algorithms := "RS256"
  audience := "class"
  domain := "example.auth0.com"

/-- An environment with one matching key where jwt.decode raises a generic
exception (bad signature or unsupported algorithm). -/
def parseFailEnv : Env where
  jwksKeys := [[("kid", "k1"), ("kty", "RSA"), ("use", "sig"), ("n", "m1"), ("e", "AQAB")]]
  getUnverifiedHeader := fun _ => .ok [("alg", "RS256"), ("kid", "k1")]
  decode := fun _ _ _ _ _ => DecodeOutcome.otherError
  algorithms := "RS256"
  audience := "class"
  domain := "example.auth0.com"

/-- An environment with one matching key where jwt.decode raises
ExpiredSignatureError. -/
def expiredEnv : Env where
  jwksKeys := [[("kid", "k1"), ("kty", "RSA"), ("use", "sig"), ("n", "m1"), ("e", "AQAB")]]
  getUnverifiedHeader := fun _ => .ok [("alg", "RS256"), ("kid", "k1")]
  decode := fun _ _ _ _ _ => DecodeOutcome.expiredSignature
  algorithms := "RS256"
  audience := "class"
  domain := "example.auth0.com"

/-- An environment whose JWKS has no record matching the token header kid. -/
def noKeyEnv : Env where
  jwksKeys := [[("kid", "other"), ("kty", "RSA"), ("use", "sig"), ("n", "m0"), ("e", "AQAB")]]
  getUnverifiedHeader := fun _ => .ok [("alg", "RS256"), ("kid", "missing")]
  decode := fun _ _ _ _ _ => DecodeOutcome.otherError
  algorithms := "RS256"
  audience := "class"
  domain := "example.auth0.com"

/-- An environment where extraction, fetch and decoding all succeed, yielding
a payload whose permissions are exactly get:students. -/
def okEnv : Env where
  jwksKeys := [[("kid", "k1"), ("kty", "RSA"), ("use", "sig"), ("n", "m1"), ("e", "AQAB")]]
  getUnverifiedHeader := fun _ => .ok [("alg", "RS256"), ("kid", "k1")]
  decode := fun _ _ _ _ _ => DecodeOutcome.ok ⟨some ["get:students"]⟩
  algorithms := "RS256"
  audience := "class"
  domain := "example.auth0.com"

end CMS

deriving instance DecidableEq for Except

namespace CMS

/-- Helper: the rsa_key loop leaves the accumulator untouched when every
record carries a kid different from the searched one. -/
lemma scanKeys_of_no_match (keys : List Dict) (kid : String) (acc : Dict) :
    (∀ r ∈ keys, ∃ k, dget r "kid" = some k ∧ k ≠ kid) →
    scanKeys keys kid acc = .ok acc := by
  induction keys with
  | nil => intro _; rfl
  | cons key rest ih =>
    intro h
    obtain ⟨k, hk, hne⟩ := h key (by simp)
    have hrest := ih (fun r hr => h r (by simp [hr]))
    simp only [scanKeys, hk]
    rw [if_neg hne]
    exact hrest

/-- Helper: unfolding of lastMatchProjection over a cons, with the later
records taking precedence. -/
lemma lastMatchProjection_cons (key : Dict) (rest : List Dict) (kid : String) :
    lastMatchProjection (key :: rest) kid =
      ((lastMatchProjection rest kid).or
        (if dget key "kid" = some kid then some (project5 key) else none)) := by
  unfold lastMatchProjection
  rw [List.reverse_cons, List.find?_append]
  cases hfind : List.find? (fun r => dget r "kid" == some kid) rest.reverse with
  | none =>
    simp only [hfind, Option.none_or, Option.map_none']
    by_cases hm : dget key "kid" = some kid
    · simp [List.find?, hm]
    · have hb : (dget key "kid" == some kid) = false := beq_eq_false_iff_ne.mpr hm
      simp [List.find?, hb, hm]
  | some r =>
    simp [hfind]

/-- Helper: on a JWKS whose records all carry a kid, and whose matching
records carry the four projected fields, the rsa_key loop computes the
projection of the last matching record (or leaves the accumulator). -/
lemma scanKeys_eq_lastMatch (keys : List Dict) (kid : String) :
    ∀ acc : Dict,
      (∀ r ∈ keys, (dget r "kid").isSome) →
      (∀ r ∈ keys, dget r "kid" = some kid →
        (dget r "kty").isSome ∧ (dget r "use").isSome ∧
        (dget r "n").isSome ∧ (dget r "e").isSome) →
      scanKeys keys kid acc = .ok ((lastMatchProjection keys kid).getD acc) := by
  induction keys with
  | nil => intro acc _ _; rfl
  | cons key rest ih =>
    intro acc hkid hf
    obtain ⟨k, hk⟩ := Option.isSome_iff_exists.mp (hkid key (by simp))
    have hkid' : ∀ r ∈ rest, (dget r "kid").isSome := fun r hr => hkid r (by simp [hr])
    have hf' : ∀ r ∈ rest, dget r "kid" = some kid →
        (dget r "kty").isSome ∧ (dget r "use").isSome ∧
        (dget r "n").isSome ∧ (dget r "e").isSome :=
      fun r hr => hf r (by simp [hr])
    rw [lastMatchProjection_cons]
    by_cases hm : k = kid
    · subst hm
      obtain ⟨ht', hu', hn', he'⟩ := hf key (by simp) hk
      obtain ⟨t, ht⟩ := Option.isSome_iff_exists.mp ht'
      obtain ⟨u, hu⟩ := Option.isSome_iff_exists.mp hu'
      obtain ⟨n, hn⟩ := Option.isSome_iff_exists.mp hn'
      obtain ⟨e, he⟩ := Option.isSome_iff_exists.mp he'
      rw [show scanKeys (key :: rest) k acc =
            scanKeys rest k [("kty", t), ("kid", k), ("use", u), ("n", n), ("e", e)] from by
          simp [scanKeys, hk, ht, hu, hn, he]]
      rw [ih _ hkid' hf']
      have hproj : project5 key = [("kty", t), ("kid", k), ("use", u), ("n", n), ("e", e)] := by
        simp [project5, hk, ht, hu, hn, he]
      rw [hk, if_pos rfl]
      cases hl : lastMatchProjection rest k with
      | none => simp [hproj]
      | some r => simp
    · have hkne : dget key "kid" ≠ some kid := by
        rw [hk]
        exact fun hcontra => hm (Option.some.inj hcontra)
      rw [show scanKeys (key :: rest) kid acc = scanKeys rest kid acc from by
          simp [scanKeys, hk, hm]]
      rw [ih acc hkid' hf', if_neg hkne]
      simp

/-- C1: the header consisting of a single space is present and non-empty and
splits into zero segments, and on it get_token_auth_header raises a bare
IndexError (from parts zero subscript on an empty list) instead of the
AuthError with status 401 and code invalid_header that the specification
requires for every malformed present header. -/
theorem get_token_auth_header_zero_segments :
    " " ≠ "" ∧ pySplit " " = [] ∧
    get_token_auth_header (some " ") = .error Exc.indexError := by
  decide

/-- C2 counterexample: a token the jose library cannot parse fails inside
jwt.get_unverified_header, which is outside the try block, so the raised
jose exception escapes verify_decode_jwt unwrapped instead of becoming the
AuthError with status 400 and code invalid_header. -/
theorem verify_decode_jwt_jose_error_escapes :
    verify_decode_jwt joseRejectEnv "garbage" =
      .error (Exc.joseError "Error decoding token headers.") := rfl

/-- C2 (amended): failures of jwt.decode other than expiry and claims errors
surface as the AuthError with status 400, code invalid_header and
description about being unable to parse the token; but a failure of
jwt.get_unverified_header, which runs before the try block, propagates as
the raw jose exception rather than an AuthError. -/
theorem verify_decode_jwt_failure_modes (env : Env) (token : String) :
    (∀ header kid rsaKey,
      env.getUnverifiedHeader token = .ok header →
      dget header "kid" = some kid →
      scanKeys env.jwksKeys kid [] = .ok rsaKey →
      rsaKey ≠ [] →
      env.decode token rsaKey env.algorithms env.audience
          ("https://" ++ env.domain ++ "/") = .otherError →
      verify_decode_jwt env token =
        .error (.authError ⟨⟨400, "invalid_header",
          "Unable to parse authentication token."⟩, 400⟩)) ∧
    (∀ msg, env.getUnverifiedHeader token = .error msg →
      verify_decode_jwt env token = .error (.joseError msg)) := by
  constructor
  · intro header kid rsaKey hh hkid hscan hne hdec
    simp only [verify_decode_jwt, hh, hkid, hscan]
    rw [if_pos hne, hdec]
  · intro msg hmsg
    simp only [verify_decode_jwt, hmsg]

/-- C2 witness: in the environment where decoding raises a generic exception
the pipeline reports the unable-to-parse AuthError. -/
theorem verify_decode_jwt_failure_modes_witness :
    verify_decode_jwt parseFailEnv "tok" =
      .error (.authError ⟨⟨400, "invalid_header",
        "Unable to parse authentication token."⟩, 400⟩) :=
  (verify_decode_jwt_failure_modes parseFailEnv "tok").1
    [("alg", "RS256"), ("kid", "k1")] "k1"
    [("kty", "RSA"), ("kid", "k1"), ("use", "sig"), ("n", "m1"), ("e", "AQAB")]
    rfl rfl (by decide) (by decide) rfl

/-- C3 counterexample: on a JWKS with two records sharing the kid k1, the
rsa_key loop keeps the projection of the LAST matching record, which differs
from the projection of the first matching record that the claim requires. -/
theorem scanKeys_not_first_match :
    firstMatchProjection [keyA, keyB] "k1" = some (project5 keyA) ∧
    scanKeys [keyA, keyB] "k1" [] = .ok (project5 keyB) ∧
    project5 keyB ≠ project5 keyA := by
  decide

/-- C3 (amended): for every JWKS keys array whose records carry a kid field
and whose matching records carry the projected fields, the lookup inside
verify_decode_jwt selects the last record whose kid equals the token header
kid, projecting exactly the fields kty, kid, use, n and e from it. -/
theorem verify_key_lookup_last_match (keys : List Dict) (kid : String)
    (hkid : ∀ r ∈ keys, (dget r "kid").isSome)
    (hfields : ∀ r ∈ keys, dget r "kid" = some kid →
      (dget r "kty").isSome ∧ (dget r "use").isSome ∧
      (dget r "n").isSome ∧ (dget r "e").isSome) :
    scanKeys keys kid [] = .ok ((lastMatchProjection keys kid).getD []) :=
  scanKeys_eq_lastMatch keys kid [] hkid hfields

/-- C3 witness: the last-match characterization evaluated on the two-record
JWKS sharing kid k1. -/
theorem verify_key_lookup_last_match_witness :
    scanKeys [keyA, keyB] "k1" [] =
      .ok ((lastMatchProjection [keyA, keyB] "k1").getD []) :=
  verify_key_lookup_last_match [keyA, keyB] "k1" (by decide) (by decide)

/-- C4: the guard produced by requires_auth runs extraction, verification and
the permission check in this order, calls the wrapped operation on the
extracted bearer token only when all three succeed, and on any stage failure
returns that stage's AuthError with the remaining stages and the wrapped
operation never running. -/
theorem requires_auth_pipeline {α : Type} (env : Env) (permission : String)
    (f : String → α) (auth : Option String) :
    (∀ v, (requires_auth_wrapper env permission f auth).2 = .ok v →
      ∃ token payload,
        get_token_auth_header auth = .ok token ∧
        verify_decode_jwt env token = .ok payload ∧
        check_permissions permission payload = .ok true ∧
        v = f token ∧
        (requires_auth_wrapper env permission f auth).1 =
          [Event.extract, Event.verify, Event.checkPerms, Event.call token]) ∧
    (∀ exc, get_token_auth_header auth = .error exc →
      requires_auth_wrapper env permission f auth = ([Event.extract], .error exc)) ∧
    (∀ token exc, get_token_auth_header auth = .ok token →
      verify_decode_jwt env token = .error exc →
      requires_auth_wrapper env permission f auth =
        ([Event.extract, Event.verify], .error exc)) ∧
    (∀ token payload exc, get_token_auth_header auth = .ok token →
      verify_decode_jwt env token = .ok payload →
      check_permissions permission payload = .error exc →
      requires_auth_wrapper env permission f auth =
        ([Event.extract, Event.verify, Event.checkPerms], .error exc)) ∧
    (∀ exc, (requires_auth_wrapper env permission f auth).2 = .error exc →
      ∀ t, Event.call t ∉ (requires_auth_wrapper env permission f auth).1) := by
  refine ⟨?_, ?_, ?_, ?_, ?_⟩
  · intro v hv
    cases hg : get_token_auth_header auth with
    | error e0 => simp [requires_auth_wrapper, hg] at hv
    | ok token =>
      cases hd : verify_decode_jwt env token with
      | error e0 => simp [requires_auth_wrapper, hg, hd] at hv
      | ok payload =>
        cases hc : check_permissions permission payload with
        | error e0 => simp [requires_auth_wrapper, hg, hd, hc] at hv
        | ok b =>
          have hb : b = true := by
            cases hp : payload.permissions with
            | none => simp [check_permissions, hp] at hc
            | some perms =>
              by_cases hmem : permission ∉ perms
              · simp [check_permissions, hp, hmem] at hc
              · simp [check_permissions, hp, hmem] at hc
                exact hc
          subst hb
          refine ⟨token, payload, rfl, hd, hc, ?_, ?_⟩
          · simp [requires_auth_wrapper, hg, hd, hc] at hv
            exact hv.symm
          · simp [requires_auth_wrapper, hg, hd, hc]
  · intro exc hg
    simp [requires_auth_wrapper, hg]
  · intro token exc hg hd
    simp [requires_auth_wrapper, hg, hd]
  · intro token payload exc hg hd hc
    simp [requires_auth_wrapper, hg, hd, hc]
  · intro exc hexc t
    cases hg : get_token_auth_header auth with
    | error e0 => simp [requires_auth_wrapper, hg]
    | ok token =>
      cases hd : verify_decode_jwt env token with
      | error e0 => simp [requires_auth_wrapper, hg, hd]
      | ok payload =>
        cases hc : check_permissions permission payload with
        | error e0 => simp [requires_auth_wrapper, hg, hd, hc]
        | ok b => simp [requires_auth_wrapper, hg, hd, hc] at hexc

/-- C4 witness: with a valid header and a payload carrying only get:students,
guarding an operation behind post:students runs the three stages, never
calls the operation, and returns the 403 unauthorized AuthError. -/
theorem requires_auth_pipeline_witness :
    requires_auth_wrapper okEnv "post:students" (fun t => t) (some "Bearer abc.def.ghi") =
      ([Event.extract, Event.verify, Event.checkPerms],
       .error (.authError ⟨⟨403, "unauthorized", "Permission not found."⟩, 403⟩)) :=
  (requires_auth_pipeline okEnv "post:students" (fun t => t)
      (some "Bearer abc.def.ghi")).2.2.2.1
    "abc.def.ghi" ⟨some ["get:students"]⟩
    (.authError ⟨⟨403, "unauthorized", "Permission not found."⟩, 403⟩)
    (by decide) rfl (by decide)

/-- C5: with the empty string as the required permission, check_permissions
fails with the 403 unauthorized AuthError unless the empty string is
literally a member of the payload's permissions collection. -/
theorem check_permissions_empty_string (payload : Payload) (perms : List String)
    (h : payload.permissions = some perms) :
    (("" : String) ∉ perms →
      check_permissions "" payload =
        .error (.authError ⟨⟨403, "unauthorized", "Permission not found."⟩, 403⟩)) ∧
    (("" : String) ∈ perms → check_permissions "" payload = .ok true) := by
  constructor
  · intro hnot
    simp [check_permissions, h, hnot]
  · intro hin
    simp [check_permissions, h, hin]

/-- C5 witness: against a payload whose permissions are exactly get:students,
the empty required permission is rejected with 403 unauthorized. -/
theorem check_permissions_empty_string_witness :
    check_permissions "" (Payload.mk (some ["get:students"])) =
      .error (.authError ⟨⟨403, "unauthorized", "Permission not found."⟩, 403⟩) :=
  (check_permissions_empty_string ⟨some ["get:students"]⟩ ["get:students"] rfl).1
    (by decide)

/-- C6: with no authorization header the guard fails during extraction with
the 401 authorization_header_missing AuthError, and the verification stage,
whose first statement is the JWKS network fetch, never runs. -/
theorem missing_header_short_circuits {α : Type} (env : Env) (permission : String)
    (f : String → α) :
    requires_auth_wrapper env permission f none =
      ([Event.extract], .error (.authError ⟨⟨401, "authorization_header_missing",
        "Authorization header is expected."⟩, 401⟩)) ∧
    Event.verify ∉ (requires_auth_wrapper env permission f none).1 := by
  refine ⟨rfl, ?_⟩
  show Event.verify ∉ [Event.extract]
  decide

/-- C7: when the token header carries a kid matching no record of the fetched
JWKS keys array, verify_decode_jwt fails with the 400 invalid_header
AuthError about being unable to find the appropriate key. -/
theorem verify_decode_jwt_no_matching_key (env : Env) (token : String)
    (header : Dict) (kid : String)
    (hh : env.getUnverifiedHeader token = .ok header)
    (hkid : dget header "kid" = some kid)
    (hnone : ∀ r ∈ env.jwksKeys, ∃ k, dget r "kid" = some k ∧ k ≠ kid) :
    verify_decode_jwt env token =
      .error (.authError ⟨⟨400, "invalid_header",
        "Unable to find the appropriate key."⟩, 400⟩) := by
  simp only [verify_decode_jwt, hh, hkid, scanKeys_of_no_match env.jwksKeys kid [] hnone]
  simp

/-- C7 witness: the header Bearer abc.def.ghi against a JWKS containing no
record with the token's kid yields the unable-to-find-key AuthError. -/
theorem verify_decode_jwt_no_matching_key_witness :
    verify_decode_jwt noKeyEnv "abc.def.ghi" =
      .error (.authError ⟨⟨400, "invalid_header",
        "Unable to find the appropriate key."⟩, 400⟩) :=
  verify_decode_jwt_no_matching_key noKeyEnv "abc.def.ghi"
    [("alg", "RS256"), ("kid", "missing")] "missing" rfl rfl (by decide)

/-- C8: when a matching signing key is found and jwt.decode raises
ExpiredSignatureError, verify_decode_jwt fails with the 401 token_expired
AuthError and never with an invalid_header AuthError. -/
theorem verify_decode_jwt_expired (env : Env) (token : String)
    (header : Dict) (kid : String) (rsaKey : Dict)
    (hh : env.getUnverifiedHeader token = .ok header)
    (hkid : dget header "kid" = some kid)
    (hscan : scanKeys env.jwksKeys kid [] = .ok rsaKey)
    (hne : rsaKey ≠ [])
    (hdec : env.decode token rsaKey env.algorithms env.audience
        ("https://" ++ env.domain ++ "/") = .expiredSignature) :
    verify_decode_jwt env token =
      .error (.authError ⟨⟨401, "token_expired", "Token expired."⟩, 401⟩) ∧
    (∀ ae : AuthError, ae.error.code = "invalid_header" →
      verify_decode_jwt env token ≠ .error (.authError ae)) := by
  have h1 : verify_decode_jwt env token =
      .error (.authError ⟨⟨401, "token_expired", "Token expired."⟩, 401⟩) := by
    simp only [verify_decode_jwt, hh, hkid, hscan]
    rw [if_pos hne, hdec]
  refine ⟨h1, ?_⟩
  intro ae hcode habs
  rw [h1] at habs
  simp only [Except.error.injEq, Exc.authError.injEq] at habs
  rw [← habs] at hcode
  simp at hcode

/-- C8 witness: in the environment where jwt.decode reports an expired
signature the pipeline reports the token_expired AuthError. -/
theorem verify_decode_jwt_expired_witness :
    verify_decode_jwt expiredEnv "tok" =
      .error (.authError ⟨⟨401, "token_expired", "Token expired."⟩, 401⟩) :=
  (verify_decode_jwt_expired expiredEnv "tok"
    [("alg", "RS256"), ("kid", "k1")] "k1"
    [("kty", "RSA"), ("kid", "k1"), ("use", "sig"), ("n", "m1"), ("e", "AQAB")]
    rfl rfl (by decide) (by decide) rfl).1

/-- C9: check_permissions fails with the 400 invalid_claims AuthError when
the payload has no permissions entry, fails with the 403 unauthorized
AuthError when the required permission is not a member of the permissions
collection, and succeeds otherwise. -/
theorem check_permissions_cases (permission : String) (payload : Payload) :
    (payload.permissions = none →
      check_permissions permission payload =
        .error (.authError ⟨⟨400, "invalid_claims",
          "Permissions not included in JWT."⟩, 400⟩)) ∧
    (∀ perms, payload.permissions = some perms →
      (permission ∉ perms →
        check_permissions permission payload =
          .error (.authError ⟨⟨403, "unauthorized", "Permission not found."⟩, 403⟩)) ∧
      (permission ∈ perms → check_permissions permission payload = .ok true)) := by
  refine ⟨?_, ?_⟩
  · intro hnone
    simp [check_permissions, hnone]
  · intro perms hsome
    refine ⟨?_, ?_⟩
    · intro hnot
      simp [check_permissions, hsome, hnot]
    · intro hin
      simp [check_permissions, hsome, hin]

/-- C9 witness: with permissions exactly get:students, checking get:students
succeeds, checking post:students fails 403 unauthorized, and a payload with
no permissions entry fails 400 invalid_claims. -/
theorem check_permissions_cases_witness :
    check_permissions "get:students" (Payload.mk (some ["get:students"])) = .ok true ∧
    check_permissions "post:students" (Payload.mk (some ["get:students"])) =
      .error (.authError ⟨⟨403, "unauthorized", "Permission not found."⟩, 403⟩) ∧
    check_permissions "get:students" (Payload.mk none) =
      .error (.authError ⟨⟨400, "invalid_claims",
        "Permissions not included in JWT."⟩, 400⟩) :=
  ⟨((check_permissions_cases "get:students" ⟨some ["get:students"]⟩).2
      ["get:students"] rfl).2 (by decide),
   ((check_permissions_cases "post:students" ⟨some ["get:students"]⟩).2
      ["get:students"] rfl).1 (by decide),
   (check_permissions_cases "get:students" ⟨none⟩).1 rfl⟩

/-- C10: the present-but-empty authorization header is falsy in Python, so
get_token_auth_header reports it exactly like an absent header: the 401
authorization_header_missing AuthError, not invalid_header. -/
theorem empty_header_is_missing :
    get_token_auth_header (some "") =
      .error (.authError ⟨⟨401, "authorization_header_missing",
        "Authorization header is expected."⟩, 401⟩) ∧
    get_token_auth_header (some "") = get_token_auth_header none := by
  constructor <;> rfl

end CMS
